import Mathlib

/-
Shallow embedding of the event-extraction and calendar pipeline of
backend/app.py, together with proofs about the spec claims.

Clock times are modelled as minutes after midnight (a Nat); dates as a
year/month/day structure with the Gregorian day arithmetic that the Python
datetime library performs.  Fallible Python code (strptime on a malformed
string, KeyError, per-event exception handling) is modelled with Option.
The external AI completion service and the external calendar insertion
call are modelled as oracle parameters, since the embedded code only
observes their results.
-/

namespace App

/-- A calendar date as handled by datetime.strptime with format YYYY-MM-DD. -/
structure Date where
  year : Nat
  month : Nat
  day : Nat
deriving DecidableEq, Repr

def isLeapYear (y : Nat) : Bool :=
  (y % 4 == 0 && y % 100 != 0) || y % 400 == 0

def daysInMonth (y m : Nat) : Nat :=
  if m == 2 then (if isLeapYear y then 29 else 28)
  else if m == 4 || m == 6 || m == 9 || m == 11 then 30
  else 31

def nextDay (d : Date) : Date :=
  if d.day < daysInMonth d.year d.month then ⟨d.year, d.month, d.day + 1⟩
  else if d.month < 12 then ⟨d.year, d.month + 1, 1⟩
  else ⟨d.year + 1, 1, 1⟩

/-- date + timedelta(days = n). -/
def addDays (d : Date) : Nat → Date
  | 0 => d
  | n + 1 => addDays (nextDay d) n

def predDay (d : Date) : Option Date :=
  if 1 < d.day then some ⟨d.year, d.month, d.day - 1⟩
  else if 1 < d.month then some ⟨d.year, d.month - 1, daysInMonth d.year (d.month - 1)⟩
  else if 1 < d.year then some ⟨d.year - 1, 12, 31⟩
  else none

/-- date - timedelta(days = n); none models the OverflowError raised past
datetime.min, which the route handler turns into an error response. -/
def subDays (d : Date) : Nat → Option Date
  | 0 => some d
  | n + 1 =>
    match predDay d with
    | some d2 => subDays d2 n
    | none => none

def pad2 (n : Nat) : String := if n < 10 then "0" ++ toString n else toString n

def pad4 (n : Nat) : String :=
  if n < 10 then "000" ++ toString n
  else if n < 100 then "00" ++ toString n
  else if n < 1000 then "0" ++ toString n
  else toString n

/-- strftime of a date in basic format YYYYMMDD. -/
def fmtDateBasic (d : Date) : String := pad4 d.year ++ pad2 d.month ++ pad2 d.day

def startsW : List Char → List Char → Bool
  | _, [] => true
  | [], _ :: _ => false
  | a :: as, b :: bs => a == b && startsW as bs

def containsSeq (needle : List Char) : List Char → Bool
  | [] => needle.isEmpty
  | c :: t => startsW (c :: t) needle || containsSeq needle t

/-- Python substring membership test on strings. -/
def strContains (hay needle : String) : Bool := containsSeq needle.data hay.data

/-- Python str.lower, restricted to the per-character lowering Lean provides. -/
def lowerStr (s : String) : String := String.mk (s.data.map Char.toLower)

/-- Value of an optional HH:MM field of an event dict.  valid t is a string
datetime.strptime accepts, denoting t minutes after midnight; empty covers
the falsy values (empty string, None); malformed is a nonempty string that
strptime rejects; absent means the key is missing from the dict. -/
inductive TimeField where
  | absent
  | empty
  | valid (t : Nat)
  | malformed
deriving DecidableEq, Repr

/-- Well-formedness of a parsed time: strptime with format H:M only ever
produces times inside one day. -/
def TimeField.ok : TimeField → Bool
  | .valid t => decide (t < 1440)
  | _ => true

/-- Result value of generate_ai_study_tips: either a Python list of strings
or a Python string (a JSON string sliced with [:3] stays a string). -/
inductive TipsResult where
  | strList (l : List String)
  | strVal (s : String)
deriving DecidableEq, Repr

/-- An event dict as produced by the extraction pipeline (app.py prompt
schema plus the study_tips key that study sessions carry). -/
structure Event where
  title : String
  date : Date
  start_time : TimeField
  end_time : TimeField
  recurring : Bool
  recurrence_pattern : String
  description : String
  type : String
  study_tips : Option TipsResult := none
deriving DecidableEq, Repr

/-- Outcome of one tip-generation round trip (lines 216-242), classified
after Markdown fences are stripped: the call itself can raise, json.loads
can raise, or the parsed value is an array of strings, a JSON string, or
some other JSON value whose slice with [:3] raises TypeError. -/
inductive AIResponse where
  | callError
  | nonJson
  | jsonArray (tips : List String)
  | jsonString (s : String)
  | jsonOther
deriving DecidableEq, Repr

/-- Fallback list of lines 247-251. -/
def fallbackTips : List String :=
  ["Review key concepts and materials",
   "Practice with relevant exercises",
   "Create study notes and summaries"]

/-- generate_ai_study_tips, lines 216-251: parse the model output, slice to
at most three items, and on any exception return breaking fallback tips. -/
def generate_ai_study_tips (resp : AIResponse) : TipsResult :=
  match resp with
  | .jsonArray tips => .strList (tips.take 3)
  | .jsonString s => .strVal (String.mk (s.data.take 3))
  | _ => .strList fallbackTips

/-- Outcome of one extraction round trip (lines 130-177), classified after
fence stripping: the generate call can raise, json.loads can raise, the
JSON can be a non-object (so that .get raises AttributeError), or an
object that may or may not carry the events key. -/
inductive RawResponse where
  | callError
  | notJson
  | jsonNonObject
  | jsonObj (events : Option (List Event))
deriving Repr

/-- extract_dates_with_gemini_text, lines 130-150: on success return the
events list capped at 25, defaulting to empty when the key is missing; on
any exception return the empty list. -/
def extract_dates_with_gemini_text (resp : RawResponse) : List Event :=
  match resp with
  | .jsonObj (some evs) => evs.take 25
  | .jsonObj none => []
  | _ => []

/-- get_sample_events, lines 179-214. -/
def get_sample_events : List Event :=
  [{ title := "Midterm Exam", date := ⟨2025, 3, 15⟩,
     start_time := .valid 840, end_time := .valid 960,
     recurring := false, recurrence_pattern := "",
     description := "Midterm examination covering chapters 1-5", type := "exam" },
   { title := "Homework 1 Due", date := ⟨2025, 2, 10⟩,
     start_time := .valid 1200, end_time := .valid 1260,
     recurring := false, recurrence_pattern := "",
     description := "Submit homework assignment 1", type := "assignment" },
   { title := "CS101 Lecture", date := ⟨2025, 1, 20⟩,
     start_time := .valid 600, end_time := .valid 690,
     recurring := true, recurrence_pattern := "weekly",
     description := "Weekly class lecture", type := "class" }]

/-- extract_dates_with_gemini_vision, lines 155-177: like the text path,
except any exception yields the built-in sample events. -/
def extract_dates_with_gemini_vision (resp : RawResponse) : List Event :=
  match resp with
  | .jsonObj (some evs) => evs.take 25
  | .jsonObj none => []
  | _ => get_sample_events

/-- MAX_CACHE_ITEMS, line 68. -/
def MAX_CACHE_ITEMS : Nat := 20

/-- cache_put, lines 71-76, on an ordered association list playing the role
of the OrderedDict: moving an existing key to the end and reassigning it is
the same as deleting it and appending the new pair; popitem with last set
to False drops the front entry when the capacity is exceeded. -/
def cache_put {K V : Type} [DecidableEq K] (c : List (K × V)) (k : K) (v : V) :
    List (K × V) :=
  let c2 := c.filter (fun p => decide (p.1 ≠ k)) ++ [(k, v)]
  if MAX_CACHE_ITEMS < c2.length then c2.drop 1 else c2

/-- The read of the cache at line 375-377 of upload_syllabus: a plain
membership test and item access, with no reordering of the OrderedDict. -/
def cache_get {K V : Type} [DecidableEq K] (c : List (K × V)) (k : K) : Option V :=
  (c.find? (fun p => decide (p.1 = k))).map (fun p => p.2)

/-- Line 475: event_data.get(type) in [assignment, homework]. -/
def isAssignType (e : Event) : Bool :=
  e.type == "assignment" || e.type == "homework"

/-- dict .get with a default time string (lines 470-471): an absent key is
replaced by the default, every present value is kept as is. -/
def getWithDefault : TimeField → Nat → TimeField
  | .absent, d => .valid d
  | f, _ => f

/-- Lines 470-480: fetch both times with defaults 10:00 and 11:00, then, if
start_time is falsy, overwrite BOTH times with the type-based defaults. -/
def startResolved (e : Event) : TimeField × TimeField :=
  match getWithDefault e.start_time 600 with
  | .empty => if isAssignType e then (.valid 1200, .valid 1260) else (.valid 600, .valid 660)
  | f => (f, getWithDefault e.end_time 660)

def parseTF : TimeField → Option Nat
  | .valid t => some t
  | _ => none

/-- Lines 482-492: an empty end time becomes 21:00 for assignment or
homework, 12:00 for a type containing exam, otherwise start plus one hour
(which requires parsing the start string and can wrap past midnight via
strftime).  A non-empty end string must be parseable; strptime raising on
it (here or at line 496) skips the event. -/
def step3End (e : Event) (st et : TimeField) : Option Nat :=
  match et with
  | .empty =>
    if isAssignType e then some 1260
    else if strContains e.type "exam" then some 720
    else (parseTF st).map (fun t => (t + 60) % 1440)
  | f => parseTF f

/-- Lines 497-500: if end is not after start, re-derive it as start plus
one hour, wrapping past midnight exactly as strftime on H:M does. -/
def step4End (s en : Nat) : Nat := if en ≤ s then (s + 60) % 1440 else en

/-- Lines 494-505: parse the start string, apply the not-after repair, then
the 23:59 midnight-deadline override on the resulting pair. -/
def step45 (st : TimeField) (en : Nat) : Option (Nat × Nat) :=
  (parseTF st).map (fun s =>
    if s == 1439 || step4End s en == 1439 then (1200, 1260) else (s, step4End s en))

/-- The full time-repair chain of lines 470-505 for one event; none means
the per-event try block caught an exception and the event was skipped. -/
def resolveTimes (e : Event) : Option (Nat × Nat) :=
  match step3End e (startResolved e).1 (startResolved e).2 with
  | none => none
  | some en => step45 (startResolved e).1 en

/-- The body handed to the calendar API for one event (lines 507-535).
The start and end dateTime strings are built from date, startMin and
endMin; the fixed time zone and the optional recurrence rule are kept. -/
structure Payload where
  summary : String
  description : String
  date : Date
  startMin : Nat
  endMin : Nat
  timeZone : String
  recurrence : Option String
deriving DecidableEq, Repr

/-- Python truthiness of the study_tips value at line 533. -/
def tipsTruthy : Option TipsResult → Bool
  | none => false
  | some (.strList l) => !l.isEmpty
  | some (.strVal s) => !(s == "")

/-- str.join with the bullet separator of line 534. -/
def bulletJoin : List String → String
  | [] => ""
  | [a] => a
  | a :: b :: r => a ++ "\n• " ++ bulletJoin (b :: r)

/-- Lines 533-535; joining a plain string iterates over its characters. -/
def tipsBlock : TipsResult → String
  | .strList l => "\n\nStudy Tips:\n• " ++ bulletJoin l
  | .strVal s => "\n\nStudy Tips:\n• " ++ bulletJoin (s.data.map String.singleton)

def descWithTips (e : Event) : String :=
  match e.study_tips with
  | some tr =>
    if e.type == "study-session" && tipsTruthy (some tr) then
      e.description ++ tipsBlock tr
    else e.description
  | none => e.description

/-- Lines 507-535: assemble the insertion payload from the event and the
repaired times.  A weekly recurring event gets an RRULE bounded 16 weeks
(112 days) after its date; strptime on YYYY-MM-DD yields midnight and
adding a pure-day timedelta keeps it, so the UNTIL timestamp rendered with
strftime Y m d T H M S Z always ends in T000000Z. -/
def mkPayload (e : Event) (s en : Nat) : Payload :=
  { summary := e.title
    description := descWithTips e
    date := e.date
    startMin := s
    endMin := en
    timeZone := "America/New_York"
    recurrence :=
      if e.recurring && (e.recurrence_pattern == "weekly") then
        some ("RRULE:FREQ=WEEKLY;UNTIL=" ++ fmtDateBasic (addDays e.date 112) ++ "T000000Z")
      else none }

/-- Normalization of one event into a calendar payload (lines 467-535);
none when the per-event try block caught an exception before the insert. -/
def normalize (e : Event) : Option Payload :=
  (resolveTimes e).map (fun q => mkPayload e q.1 q.2)

/-- Line 411: the guard checking for the substring review in the lowered
event title. -/
def containsReview (t : String) : Bool := strContains (lowerStr t) "review"

/-- The loop of lines 422-447.  tips is the oracle for one AI tips call,
stuTips the pre-computed tips for the exam itself; the index selects the
Review flavor for the first offset and a fresh Practice tips call for the
later ones.  A failing date subtraction aborts the whole request. -/
def sessionsLoop (tips : Event → AIResponse) (exam : Event) (stuTips : TipsResult) :
    Nat → List Nat → Option (List Event)
  | _, [] => some []
  | i, d :: rest =>
    match subDays exam.date d with
    | none => none
    | some sdate =>
      let sess : Event :=
        if i == 0 then
          { title := "📚 Review: " ++ exam.title, date := sdate,
            start_time := .valid 1140, end_time := .valid 1260,
            recurring := false, recurrence_pattern := "",
            description := "Study session for " ++ exam.title,
            type := "study-session", study_tips := some stuTips }
        else
          { title := "💪 Practice: " ++ exam.title, date := sdate,
            start_time := .valid 1140, end_time := .valid 1260,
            recurring := false, recurrence_pattern := "",
            description := "Study session for " ++ exam.title,
            type := "study-session",
            study_tips :=
              some (generate_ai_study_tips
                (tips { exam with title := "Practice for " ++ exam.title })) }
      match sessionsLoop tips exam stuTips (i + 1) rest with
      | none => none
      | some rest2 => some (sess :: rest2)

/-- generate_study_sessions, lines 399-449: a title containing review
yields no sessions; otherwise tips for the exam are generated once and the
per-offset loop runs. -/
def generate_study_sessions (tips : Event → AIResponse) (exam : Event)
    (daysBefore : List Nat) : Option (List Event) :=
  if containsReview exam.title then some []
  else sessionsLoop tips exam (generate_ai_study_tips (tips exam)) 0 daysBefore

/-- The JSON body returned by the add-to-calendar route. -/
structure CalResponse where
  success : Bool
  added_events : Nat
  recurring_events : Nat
  single_events : Nat
deriving DecidableEq, Repr

/-- The insertion loop of lines 467-547: each event is normalized and
inserted inside its own try block; any failure skips just that event and
the loop continues, so the tally counts exactly the events that both
normalize and insert successfully. -/
def insertLoop (insertOk : Payload → Bool) : List Event → Nat
  | [] => 0
  | e :: rest =>
    (match normalize e with
     | some p => if insertOk p then 1 else 0
     | none => 0) + insertLoop insertOk rest

/-- add_to_calendar, lines 455-563, with the calendar service abstracted to
the per-payload success oracle insertOk and the session credentials to the
authed flag. -/
def add_to_calendar (authed : Bool) (insertOk : Payload → Bool)
    (events : List Event) : CalResponse :=
  if authed then
    { success := true
      added_events := insertLoop insertOk events
      recurring_events := events.countP (fun e => e.recurring)
      single_events := events.length - events.countP (fun e => e.recurring) }
  else
    { success := false, added_events := 0, recurring_events := 0, single_events := 0 }

/-- upload_syllabus, lines 357-397, abstracting the md5 fingerprint to any
function of the raw bytes alone and the whole text/vision extraction
pipeline to the extractor oracle.  The returned Bool records whether the
extraction pipeline (and with it the AI service) was invoked; none models
the empty-filename client error. -/
def upload {K : Type} [DecidableEq K] (hash : List Nat → K)
    (extractor : List Nat → List Event) (cache : List (K × List Event))
    (filename : String) (content : List Nat) :
    Option (List Event × List (K × List Event) × Bool) :=
  if filename = "" then none
  else
    match cache_get cache (hash content) with
    | some evs => some (evs, cache, false)
    | none =>
      let evs := extractor content
      some (evs, cache_put cache (hash content) evs, true)

/-! Inversion lemmas for the normalization chain. -/

theorem normalize_eq_some (e : Event) (p : Payload) (h : normalize e = some p) :
    ∃ q, resolveTimes e = some q ∧ p = mkPayload e q.1 q.2 := by
  unfold normalize at h
  cases hr : resolveTimes e with
  | none => rw [hr] at h; cases h
  | some q =>
    rw [hr] at h
    simp only [Option.map_some', Option.some.injEq] at h
    exact ⟨q, rfl, h.symm⟩

theorem resolveTimes_eq_some (e : Event) (q : Nat × Nat) (h : resolveTimes e = some q) :
    ∃ en, step3End e (startResolved e).1 (startResolved e).2 = some en ∧
      step45 (startResolved e).1 en = some q := by
  unfold resolveTimes at h
  cases h3 : step3End e (startResolved e).1 (startResolved e).2 with
  | none => rw [h3] at h; cases h
  | some en => rw [h3] at h; exact ⟨en, rfl, h⟩

theorem step45_pos (st : TimeField) (en a b : Nat)
    (h : step45 st en = some (a, b)) (ha : a < 1380) : a < b := by
  unfold step45 at h
  cases hp : parseTF st with
  | none => rw [hp] at h; cases h
  | some s =>
    rw [hp] at h
    simp only [Option.map_some', Option.some.injEq] at h
    split at h
    · obtain ⟨rfl, rfl⟩ := Prod.mk.injEq .. ▸ h
      omega
    · obtain ⟨rfl, rfl⟩ := Prod.mk.injEq .. ▸ h
      unfold step4End
      split <;> omega

/-- A class event with start time 23:30 and an empty end time. -/
def evC1 : Event :=
  { title := "Late class", date := ⟨2025, 4, 1⟩,
    start_time := .valid 1410, end_time := .empty,
    recurring := false, recurrence_pattern := "",
    description := "", type := "class" }

/-- C1 counterexample: an event with start time 23:30 and an empty end
time.  The repaired end is start plus one hour, which strftime wraps to
00:30, and neither resolved string equals 23:59, so the constructed
payload runs from minute 1410 to minute 30 of the same day: the claimed
strictly positive duration fails. -/
theorem normalize_pos_duration_cex :
    ((normalize evC1).map (fun p => decide (p.startMin < p.endMin))) = some false := by
  decide

/-- C1 (amended): whenever normalization constructs a payload and the
payload start time is before 23:00, the end time is strictly after the
start time on the same day; resolved starts in 23:00-23:58 with a
not-after end wrap past midnight instead. -/
theorem normalize_pos_duration (e : Event) (p : Payload)
    (h : normalize e = some p) (hs : p.startMin < 1380) :
    p.startMin < p.endMin := by
  obtain ⟨q, hq, hp⟩ := normalize_eq_some e p h
  obtain ⟨en, _, h45⟩ := resolveTimes_eq_some e q hq
  subst hp
  rcases q with ⟨a, b⟩
  exact step45_pos _ en a b h45 hs

def evW1 : Event :=
  { title := "CS101 Lecture", date := ⟨2025, 1, 20⟩,
    start_time := .valid 600, end_time := .empty,
    recurring := false, recurrence_pattern := "",
    description := "", type := "class" }

def pW1 : Payload := mkPayload evW1 600 660

/-- Witness for the amended C1 theorem at a concrete event. -/
theorem normalize_pos_duration_witness :
    normalize evW1 = some pW1 ∧ pW1.startMin < 1380 ∧ pW1.startMin < pW1.endMin := by
  have h : normalize evW1 = some pW1 := by decide
  exact ⟨h, by decide, normalize_pos_duration evW1 pW1 h (by decide)⟩

theorem step45_start1439 (en : Nat) (q : Nat × Nat)
    (h : step45 (.valid 1439) en = some q) : q = (1200, 1260) := by
  simp [step45, parseTF] at h
  exact h.symm

theorem step45_end1439 (t : Nat) (ht : t < 1440) :
    step45 (.valid t) 1439 = some (1200, 1260) := by
  by_cases hle : (1439 : Nat) ≤ t
  · have h9 : t = 1439 := by omega
    subst h9
    decide
  · simp [step45, parseTF, step4End, hle]

/-- An exam event with an empty start time and end time 23:59: the
empty-start defaulting of lines 474-480 overwrites the end time with
11:00 before the 23:59 override of line 503 can see it. -/
def evC2 : Event :=
  { title := "Midnight exam", date := ⟨2025, 5, 1⟩,
    start_time := .empty, end_time := .valid 1439,
    recurring := false, recurrence_pattern := "",
    description := "", type := "exam" }

/-- C2 counterexample: the event with end time 23:59 but empty start time
normalizes to 10:00-11:00, not to the claimed 20:00-21:00. -/
theorem normalize_2359_cex :
    ((normalize evC2).map (fun p => (p.startMin, p.endMin))) = some (600, 660) ∧
      ((600, 660) : Nat × Nat) ≠ (1200, 1260) := by
  constructor
  · decide
  · decide

/-- C2 (amended): an event whose start time string is 23:59, or whose end
time string is 23:59 while its start time is not the falsy empty value,
normalizes to the 20:00-21:00 window; an empty start time instead discards
the given end time through the type-based defaulting. -/
theorem normalize_2359 (e : Event) (p : Payload)
    (hok : e.start_time.ok = true)
    (h : normalize e = some p)
    (h59 : e.start_time = .valid 1439 ∨
      (e.end_time = .valid 1439 ∧ e.start_time ≠ .empty)) :
    p.startMin = 1200 ∧ p.endMin = 1260 := by
  obtain ⟨q, hq, hp⟩ := normalize_eq_some e p h
  obtain ⟨en, h3, h45⟩ := resolveTimes_eq_some e q hq
  subst hp
  rcases h59 with hstart | ⟨hend, hne⟩
  · have hsr : (startResolved e).1 = TimeField.valid 1439 := by
      simp [startResolved, getWithDefault, hstart]
    rw [hsr] at h45
    have hquv := step45_start1439 en q h45
    rw [hquv]
    exact ⟨rfl, rfl⟩
  · cases hst : e.start_time with
    | empty => exact absurd hst hne
    | malformed =>
      have hsr : (startResolved e).1 = TimeField.malformed := by
        simp [startResolved, getWithDefault, hst]
      rw [hsr] at h45
      simp [step45, parseTF] at h45
    | absent =>
      have hsr : startResolved e = (TimeField.valid 600, TimeField.valid 1439) := by
        simp [startResolved, getWithDefault, hst, hend]
      rw [hsr] at h3 h45
      simp only [step3End, parseTF, Option.some.injEq] at h3
      rw [← h3] at h45
      rw [step45_end1439 600 (by omega)] at h45
      obtain rfl := (Option.some.injEq .. ▸ h45).symm
      exact ⟨rfl, rfl⟩
    | valid t =>
      have ht : t < 1440 := by
        rw [hst] at hok
        simpa [TimeField.ok] using hok
      have hsr : startResolved e = (TimeField.valid t, TimeField.valid 1439) := by
        simp [startResolved, getWithDefault, hst, hend]
      rw [hsr] at h3 h45
      simp only [step3End, parseTF, Option.some.injEq] at h3
      rw [← h3] at h45
      rw [step45_end1439 t ht] at h45
      obtain rfl := (Option.some.injEq .. ▸ h45).symm
      exact ⟨rfl, rfl⟩

/-- An assignment due at 23:59 with no end time given. -/
def evW2 : Event :=
  { title := "Homework 1 Due", date := ⟨2025, 2, 10⟩,
    start_time := .valid 1439, end_time := .absent,
    recurring := false, recurrence_pattern := "",
    description := "", type := "assignment" }

def pW2 : Payload := mkPayload evW2 1200 1260

/-- Witness for the amended C2 theorem at a concrete event. -/
theorem normalize_2359_witness :
    normalize evW2 = some pW2 ∧ pW2.startMin = 1200 ∧ pW2.endMin = 1260 := by
  have h : normalize evW2 = some pW2 := by decide
  exact ⟨h, normalize_2359 evW2 pW2 (by decide) h (Or.inl rfl)⟩

/-- The cache state after putting keys 0 to 19 with values 100 to 119. -/
def c3Cache : List (Nat × Nat) :=
  (List.range 20).foldl (fun c k => cache_put c k (100 + k)) []

/-- C3: evaluation of the cache at the failing input.  After filling the
cache with keys 0..19, key 0 is read (a hit), then key 20 is inserted.
The capacity bound of 20 holds, but the insert evicts key 0 - the entry
most recently touched by get - while key 1, which the least-recently-
touched policy of the claim would evict, survives: the read path of
upload_syllabus never calls move_to_end, so recency is put-order only. -/
theorem cache_get_does_not_refresh :
    cache_get c3Cache 0 = some 100 ∧
    cache_get (cache_put c3Cache 20 120) 0 = none ∧
    cache_get (cache_put c3Cache 20 120) 1 = some 101 ∧
    (cache_put c3Cache 20 120).length = 20 := by
  refine ⟨by decide, by decide, by decide, by decide⟩

/-- An assignment with both time keys missing from the dict. -/
def evC9 : Event :=
  { title := "Essay due", date := ⟨2025, 4, 20⟩,
    start_time := .absent, end_time := .absent,
    recurring := false, recurrence_pattern := "",
    description := "", type := "assignment" }

/-- C9 counterexample: for an assignment whose start_time key is missing
(rather than present and empty), dict.get substitutes 10:00 before the
falsy check, so the type-based 20:00-21:00 defaults never fire: the
payload is 10:00-11:00, not the claimed 20:00-21:00. -/
theorem normalize_default_times_cex :
    ((normalize evC9).map (fun p => (p.startMin, p.endMin))) = some (600, 660) ∧
      ((600, 660) : Nat × Nat) ≠ (1200, 1260) := by
  constructor
  · decide
  · decide

/-- C9 (amended): only a present-but-falsy start_time triggers the
type-based defaulting of both times (20:00-21:00 for assignment and
homework, 10:00-11:00 otherwise); a missing start_time key instead
defaults start to 10:00 regardless of type, with a missing end_time key
defaulting to 11:00. -/
theorem normalize_default_times (e : Event) :
    (e.start_time = .empty →
      (normalize e).map (fun p => (p.startMin, p.endMin)) =
        some (if isAssignType e then ((1200 : Nat), (1260 : Nat)) else (600, 660))) ∧
    (e.start_time = .absent → e.end_time = .absent →
      (normalize e).map (fun p => (p.startMin, p.endMin)) = some (600, 660)) := by
  constructor
  · intro h
    cases hA : isAssignType e with
    | false =>
      simp [normalize, resolveTimes, startResolved, getWithDefault, h, hA,
        step3End, step45, parseTF, step4End, mkPayload]
    | true =>
      simp [normalize, resolveTimes, startResolved, getWithDefault, h, hA,
        step3End, step45, parseTF, step4End, mkPayload]
  · intro h1 h2
    simp [normalize, resolveTimes, startResolved, getWithDefault, h1, h2,
      step3End, step45, parseTF, step4End, mkPayload]

/-- A homework event with a present-but-empty start time. -/
def evW9 : Event :=
  { title := "Reading response", date := ⟨2025, 3, 2⟩,
    start_time := .empty, end_time := .valid 1439,
    recurring := false, recurrence_pattern := "",
    description := "", type := "homework" }

/-- An office-hours event with both time keys missing. -/
def evW9b : Event :=
  { title := "Office hours", date := ⟨2025, 3, 3⟩,
    start_time := .absent, end_time := .absent,
    recurring := false, recurrence_pattern := "",
    description := "", type := "office_hours" }

/-- Witness for the amended C9 theorem at concrete events. -/
theorem normalize_default_times_witness :
    ((normalize evW9).map (fun p => (p.startMin, p.endMin))) = some (1200, 1260) ∧
    ((normalize evW9b).map (fun p => (p.startMin, p.endMin))) = some (600, 660) := by
  constructor
  · exact ((normalize_default_times evW9).1 rfl).trans (by decide)
  · exact (normalize_default_times evW9b).2 rfl rfl

/-- C7: every recurring event with the weekly pattern gets a weekly
recurrence rule whose UNTIL bound is the event date plus 16 weeks (112
days), rendered as a midnight-UTC timestamp. -/
theorem normalize_weekly (e : Event) (p : Payload)
    (hr : e.recurring = true) (hp : e.recurrence_pattern = "weekly")
    (h : normalize e = some p) :
    p.recurrence =
      some ("RRULE:FREQ=WEEKLY;UNTIL=" ++ fmtDateBasic (addDays e.date 112) ++ "T000000Z") := by
  obtain ⟨q, hq, hpe⟩ := normalize_eq_some e p h
  subst hpe
  simp [mkPayload, hr, hp]

/-- A weekly lecture dated 2025-01-20. -/
def evW7 : Event :=
  { title := "CS101 Lecture", date := ⟨2025, 1, 20⟩,
    start_time := .valid 600, end_time := .valid 690,
    recurring := true, recurrence_pattern := "weekly",
    description := "Weekly class lecture", type := "class" }

def pW7 : Payload := mkPayload evW7 600 690

set_option maxRecDepth 4000 in
/-- Witness for C7: the weekly event dated 2025-01-20 terminates on
2025-05-12 at midnight UTC. -/
theorem normalize_weekly_witness :
    normalize evW7 = some pW7 ∧
    pW7.recurrence = some "RRULE:FREQ=WEEKLY;UNTIL=20250512T000000Z" := by
  have h : normalize evW7 = some pW7 := by decide
  refine ⟨h, (normalize_weekly evW7 pW7 rfl rfl h).trans ?_⟩
  decide

/-- Number of items in a tips result (characters, for a sliced string). -/
def tipsLen : TipsResult → Nat
  | .strList l => l.length
  | .strVal s => s.length

/-- Whether a tips result is a list of exactly three strings. -/
def isThreeStringTips : TipsResult → Bool
  | .strList l => l.length == 3
  | .strVal _ => false

/-- C5 counterexample: when the model returns a JSON array with only two
items, the slice with [:3] keeps both and nothing pads the list, so the
function returns two strings, not the claimed three. -/
theorem generate_ai_study_tips_cex :
    isThreeStringTips (generate_ai_study_tips (.jsonArray ["Tip A", "Tip B"])) = false := by
  decide

/-- C5 (amended): tip generation never raises and never returns more than
three items, and any call error, JSON parse error, or non-sliceable JSON
value yields the fixed three-item fallback; but a parsed array shorter
than three is returned as is, and a JSON string is returned as a sliced
string rather than a list. -/
theorem generate_ai_study_tips_spec (r : AIResponse) :
    tipsLen (generate_ai_study_tips r) ≤ 3 ∧
    generate_ai_study_tips .callError = .strList fallbackTips ∧
    generate_ai_study_tips .nonJson = .strList fallbackTips ∧
    generate_ai_study_tips .jsonOther = .strList fallbackTips ∧
    tipsLen (.strList fallbackTips) = 3 := by
  refine ⟨?_, rfl, rfl, rfl, rfl⟩
  cases r with
  | jsonArray tips =>
    simp only [generate_ai_study_tips, tipsLen, List.length_take]
    omega
  | jsonString s =>
    simp only [generate_ai_study_tips, tipsLen, String.length, List.length_take]
    omega
  | callError => decide
  | nonJson => decide
  | jsonOther => decide

/-- C6 counterexample: the vision extraction path answers a non-JSON model
reply with the built-in sample events, not with the empty list. -/
theorem gemini_vision_nonjson_cex :
    extract_dates_with_gemini_vision RawResponse.notJson = get_sample_events ∧
      get_sample_events ≠ [] := by
  exact ⟨rfl, by decide⟩

/-- C6 (amended): neither parsing path raises.  The text path yields the
empty list on a call error, non-JSON output, a non-object JSON value, or
an object without the events key; the vision path yields the empty list
only for an object without the events key, and falls back to the fixed
sample events on the other failures; on success both cap the list at 25. -/
theorem gemini_parse_spec :
    (∀ evs : List Event,
      extract_dates_with_gemini_text (.jsonObj (some evs)) = evs.take 25 ∧
      extract_dates_with_gemini_vision (.jsonObj (some evs)) = evs.take 25) ∧
    extract_dates_with_gemini_text (.jsonObj none) = [] ∧
    extract_dates_with_gemini_text .notJson = [] ∧
    extract_dates_with_gemini_text .jsonNonObject = [] ∧
    extract_dates_with_gemini_text .callError = [] ∧
    extract_dates_with_gemini_vision (.jsonObj none) = [] ∧
    extract_dates_with_gemini_vision .notJson = get_sample_events ∧
    extract_dates_with_gemini_vision .jsonNonObject = get_sample_events ∧
    extract_dates_with_gemini_vision .callError = get_sample_events :=
  ⟨fun _ => ⟨rfl, rfl⟩, rfl, rfl, rfl, rfl, rfl, rfl, rfl, rfl⟩

/-- Whether the per-event try block of add_to_calendar fails for an event:
either normalization raises (none) or the insertion call fails. -/
def eventFails (ok : Payload → Bool) (e : Event) : Bool :=
  match normalize e with
  | none => true
  | some p => !ok p

theorem insertLoop_append (ok : Payload → Bool) (a b : List Event) :
    insertLoop ok (a ++ b) = insertLoop ok a + insertLoop ok b := by
  induction a with
  | nil => simp [insertLoop]
  | cons x rest ih =>
    simp only [List.cons_append, insertLoop, List.append_eq, ih]
    omega

/-- C4: a failure on one event of the batch (normalization exception or
insertion error) is caught and that event is skipped; every other event is
still attempted, and the route returns a success response whose tally
counts exactly the events before and after the failing one. -/
theorem add_to_calendar_batch_isolation (ok : Payload → Bool)
    (pre post : List Event) (e : Event) (hf : eventFails ok e = true) :
    (add_to_calendar true ok (pre ++ e :: post)).success = true ∧
    (add_to_calendar true ok (pre ++ e :: post)).added_events =
      insertLoop ok pre + insertLoop ok post := by
  refine ⟨rfl, ?_⟩
  show insertLoop ok (pre ++ e :: post) = _
  rw [insertLoop_append]
  have hz : insertLoop ok (e :: post) = insertLoop ok post := by
    unfold eventFails at hf
    cases hn : normalize e with
    | none =>
      simp only [insertLoop]
      rw [hn]
      simp
    | some p =>
      rw [hn] at hf
      have hf2 : (!ok p) = true := hf
      have hf3 : ok p = false := by simpa using hf2
      simp only [insertLoop]
      rw [hn]
      simp [hf3]
  rw [hz]

def okTrue : Payload → Bool := fun _ => true

/-- An event whose start time string strptime rejects. -/
def evBad : Event :=
  { title := "Bad time", date := ⟨2025, 6, 1⟩,
    start_time := .malformed, end_time := .absent,
    recurring := false, recurrence_pattern := "",
    description := "", type := "exam" }

def evGoodA : Event :=
  { title := "Quiz 1", date := ⟨2025, 6, 2⟩,
    start_time := .valid 540, end_time := .valid 600,
    recurring := false, recurrence_pattern := "",
    description := "", type := "exam" }

def evGoodB : Event :=
  { title := "Quiz 2", date := ⟨2025, 6, 9⟩,
    start_time := .valid 540, end_time := .valid 600,
    recurring := false, recurrence_pattern := "",
    description := "", type := "exam" }

/-- Witness for C4: a malformed middle event is skipped while both
surrounding events are inserted. -/
theorem add_to_calendar_batch_isolation_witness :
    (add_to_calendar true okTrue [evGoodA, evBad, evGoodB]).success = true ∧
    (add_to_calendar true okTrue [evGoodA, evBad, evGoodB]).added_events =
      insertLoop okTrue [evGoodA] + insertLoop okTrue [evGoodB] :=
  add_to_calendar_batch_isolation okTrue [evGoodA] [evGoodB] evBad (by decide)

/-- Option-valued map over a list, failing as soon as one element fails:
the shape of the per-offset date subtractions of the session loop. -/
def mapOpt {α β : Type} (f : α → Option β) : List α → Option (List β)
  | [] => some []
  | a :: r =>
    match f a, mapOpt f r with
    | some b, some rs => some (b :: rs)
    | _, _ => none

theorem sessionsLoop_spec (tips : Event → AIResponse) (exam : Event) (stuTips : TipsResult) :
    ∀ (days : List Nat) (i : Nat) (ss : List Event),
      sessionsLoop tips exam stuTips i days = some ss →
      ss.length = days.length ∧
      mapOpt (subDays exam.date) days = some (ss.map (fun s => s.date)) ∧
      ∀ s ∈ ss, s.start_time = .valid 1140 ∧ s.end_time = .valid 1260 ∧
        s.recurring = false ∧ s.type = "study-session" ∧ s.study_tips.isSome = true := by
  intro days
  induction days with
  | nil =>
    intro i ss h
    simp only [sessionsLoop, Option.some.injEq] at h
    subst h
    refine ⟨rfl, rfl, ?_⟩
    intro s hs
    cases hs
  | cons d rest ih =>
    intro i ss h
    simp only [sessionsLoop] at h
    cases hd : subDays exam.date d with
    | none => rw [hd] at h; cases h
    | some sdate =>
      rw [hd] at h
      cases hr : sessionsLoop tips exam stuTips (i + 1) rest with
      | none => rw [hr] at h; cases h
      | some rest2 =>
        rw [hr] at h
        simp only [Option.some.injEq] at h
        obtain ⟨hl, hm, hall⟩ := ih (i + 1) rest2 hr
        subst h
        refine ⟨by simp [hl], ?_, ?_⟩
        · simp only [mapOpt]
          rw [hd, hm]
          cases hi : (i == 0) <;> simp [hi]
        · intro s hs
          rcases List.mem_cons.mp hs with hs | hs
          · subst hs
            cases hi : (i == 0) <;> simp [hi]
          · exact hall s hs

/-- C8 (amended): for an exam whose title does not contain review, a
successful planning run yields exactly one session per offset, dated by
subtracting that offset in days from the exam date, each with the fixed
19:00-21:00 window, recurring false, type study-session, and carrying the
tips the generator returned for it - which need not be three items, since
the generator does not pad short arrays. -/
theorem generate_study_sessions_spec (tips : Event → AIResponse) (exam : Event)
    (days : List Nat) (ss : List Event)
    (hrev : containsReview exam.title = false)
    (h : generate_study_sessions tips exam days = some ss) :
    ss.length = days.length ∧
    mapOpt (subDays exam.date) days = some (ss.map (fun s => s.date)) ∧
    ∀ s ∈ ss, s.start_time = .valid 1140 ∧ s.end_time = .valid 1260 ∧
      s.recurring = false ∧ s.type = "study-session" ∧ s.study_tips.isSome = true := by
  unfold generate_study_sessions at h
  rw [if_neg (by simp [hrev])] at h
  exact sessionsLoop_spec tips exam _ days 0 ss h

/-- The tips oracle whose underlying call always raises. -/
def tipsErrOracle : Event → AIResponse := fun _ => .callError

/-- The tips oracle that always returns a two-item JSON array. -/
def tipsShortOracle : Event → AIResponse := fun _ => .jsonArray ["Tip A", "Tip B"]

def examDemo : Event :=
  { title := "Midterm Exam", date := ⟨2025, 3, 15⟩,
    start_time := .valid 840, end_time := .valid 960,
    recurring := false, recurrence_pattern := "",
    description := "Midterm examination", type := "exam" }

/-- The two sessions planned for examDemo with offsets [5, 2] under the
always-failing tips oracle. -/
def demoSessions : List Event :=
  [{ title := "📚 Review: Midterm Exam", date := ⟨2025, 3, 10⟩,
     start_time := .valid 1140, end_time := .valid 1260,
     recurring := false, recurrence_pattern := "",
     description := "Study session for Midterm Exam",
     type := "study-session", study_tips := some (.strList fallbackTips) },
   { title := "💪 Practice: Midterm Exam", date := ⟨2025, 3, 13⟩,
     start_time := .valid 1140, end_time := .valid 1260,
     recurring := false, recurrence_pattern := "",
     description := "Study session for Midterm Exam",
     type := "study-session", study_tips := some (.strList fallbackTips) }]

/-- Witness for the amended C8 theorem: the exam dated 2025-03-15 with
offsets [5, 2] yields sessions dated 2025-03-10 and 2025-03-13. -/
theorem generate_study_sessions_witness :
    generate_study_sessions tipsErrOracle examDemo [5, 2] = some demoSessions ∧
    mapOpt (subDays examDemo.date) [5, 2] = some (demoSessions.map (fun s => s.date)) ∧
    demoSessions.map (fun s => s.date) = [⟨2025, 3, 10⟩, ⟨2025, 3, 13⟩] ∧
    demoSessions.length = [5, 2].length := by
  have hg : generate_study_sessions tipsErrOracle examDemo [5, 2] = some demoSessions := by
    decide
  have h := generate_study_sessions_spec tipsErrOracle examDemo [5, 2] demoSessions
    (by decide) hg
  exact ⟨hg, h.2.1, by decide, h.1⟩

/-- Whether every planned session carries a list of exactly three tip
strings, as the claim asserts. -/
def allTipsThree (r : Option (List Event)) : Bool :=
  match r with
  | none => false
  | some ss => ss.all (fun s =>
      match s.study_tips with
      | some (.strList l) => l.length == 3
      | _ => false)

/-- C8 counterexample: with an AI reply of two tips, both planned sessions
carry two-element study_tips, not the claimed three-element sequence. -/
theorem generate_study_sessions_cex :
    allTipsThree (generate_study_sessions tipsShortOracle examDemo [5, 2]) = false := by
  decide

theorem find_append_key {K V : Type} [DecidableEq K] (k : K) (v : V) :
    ∀ (l : List (K × V)), (∀ p ∈ l, p.1 ≠ k) →
      (l ++ [(k, v)]).find? (fun p => decide (p.1 = k)) = some (k, v) := by
  intro l
  induction l with
  | nil =>
    intro _
    simp [List.find?]
  | cons a t ih =>
    intro hmem
    have ha : a.1 ≠ k := hmem a (List.mem_cons_self a t)
    have hd : (decide (a.1 = k)) = false := decide_eq_false ha
    simp only [List.cons_append, List.find?, hd]
    exact ih (fun p hp => hmem p (List.mem_cons_of_mem a hp))

theorem cache_get_put {K V : Type} [DecidableEq K] (c : List (K × V)) (k : K) (v : V) :
    cache_get (cache_put c k v) k = some v := by
  unfold cache_put cache_get
  have hFmem : ∀ p ∈ c.filter (fun p => decide (p.1 ≠ k)), p.1 ≠ k := by
    intro p hp
    simpa using List.of_mem_filter hp
  by_cases hlen :
      MAX_CACHE_ITEMS < (c.filter (fun p => decide (p.1 ≠ k)) ++ [(k, v)]).length
  · rw [if_pos hlen]
    have h1 : 1 ≤ (c.filter (fun p => decide (p.1 ≠ k))).length := by
      simp only [List.length_append, List.length_cons, List.length_nil] at hlen
      unfold MAX_CACHE_ITEMS at hlen
      omega
    rw [List.drop_append_of_le_length h1]
    rw [find_append_key k v _
      (fun p hp => hFmem p (List.mem_of_mem_drop hp))]
    rfl
  · rw [if_neg hlen]
    rw [find_append_key k v _ hFmem]
    rfl

/-- C10: after a first upload of content B (under any filename accepted by
the route), a second upload of the same bytes - whatever its filename,
since the fingerprint is computed from the bytes alone - is served from
the cache: it returns the same event list, leaves the cache unchanged, and
does not invoke the extraction pipeline or the AI service. -/
theorem upload_second_call_hits_cache {K : Type} [DecidableEq K]
    (hash : List Nat → K) (extractor : List Nat → List Event)
    (c : List (K × List Event)) (f1 f2 : String) (B : List Nat)
    (h1 : ¬ f1 = "") (h2 : ¬ f2 = "")
    (ev : List Event) (c1 : List (K × List Event)) (b1 : Bool)
    (hcall : upload hash extractor c f1 B = some (ev, c1, b1)) :
    upload hash extractor c1 f2 B = some (ev, c1, false) := by
  unfold upload at hcall ⊢
  rw [if_neg h1] at hcall
  rw [if_neg h2]
  cases hg : cache_get c (hash B) with
  | some evs =>
    rw [hg] at hcall
    simp only [Option.some.injEq, Prod.mk.injEq] at hcall
    obtain ⟨rfl, rfl, rfl⟩ := hcall
    rw [hg]
  | none =>
    rw [hg] at hcall
    simp only [Option.some.injEq, Prod.mk.injEq] at hcall
    obtain ⟨rfl, rfl, rfl⟩ := hcall
    rw [cache_get_put]

def exEmpty : List Nat → List Event := fun _ => []

/-- Witness for C10 at concrete bytes, two distinct filenames, and the
identity fingerprint on an initially empty cache. -/
theorem upload_second_call_hits_cache_witness :
    upload (fun b => b) exEmpty [([7, 7], [])] "b.pdf" [7, 7] =
      some ([], [([7, 7], [])], false) :=
  upload_second_call_hits_cache (fun b => b) exEmpty [] "a.pdf" "b.pdf" [7, 7]
    (by decide) (by decide) [] [([7, 7], [])] true (by decide)

end App
